import Mathlib

/-!
Verification of the Nazuna session manager and group-event policy engine
(`src/dados/src/connect.js`) against its natural-language specification.

JavaScript strings are modelled as lists of characters (`JStr`); fallible
network calls are modelled by an oracle assigning to each outbound call
either success or a thrown error message; the observable behaviour of each
event handler is a list of effects plus a flag recording whether an
exception escaped the handler.
-/

namespace Nazuna

/-- JavaScript strings, modelled as lists of unicode scalar values. -/
abbrev JStr := List Char

/-- JS `s.split('@')[0]`: the longest prefix of `s` before the first `'@'`. -/
def splitAtSign (s : JStr) : JStr := s.takeWhile (· ≠ '@')

/-- JS `s.split(':')[0]`: the longest prefix of `s` before the first `':'`. -/
def splitColon (s : JStr) : JStr := s.takeWhile (· ≠ ':')

/-- JS `v || dflt` for an optional string `v`: the default is used when the
value is absent (`undefined`) or the empty string (both falsy in JS). -/
def jsOrStr (v : Option JStr) (dflt : JStr) : JStr :=
  match v with
  | some s => if s.isEmpty then dflt else s
  | none => dflt

/-- Fuel-driven worker for `replaceAll`.  Scans the subject left to right;
at each position where the token is a prefix it emits the replacement and
skips past the token (the replacement itself is never rescanned, matching
JS `String.prototype.replaceAll`). -/
def replaceAllGo (tok rep : JStr) : Nat → JStr → JStr
  | 0, rest => rest
  | _ + 1, [] => []
  | f + 1, c :: cs =>
    if tok.isPrefixOf (c :: cs) ∧ tok ≠ [] then
      rep ++ replaceAllGo tok rep f (cs.drop (tok.length - 1))
    else
      c :: replaceAllGo tok rep f cs

/-- JS `s.replaceAll(tok, rep)`: replaces every (non-overlapping,
left-to-right) occurrence of `tok` in `s` by `rep`. -/
def replaceAll (tok rep s : JStr) : JStr := replaceAllGo tok rep s.length s

theorem replaceAllGo_fuel (tok rep : JStr) :
    ∀ f₁ f₂ s, s.length ≤ f₁ → s.length ≤ f₂ →
      replaceAllGo tok rep f₁ s = replaceAllGo tok rep f₂ s := by
  intro f₁
  induction f₁ with
  | zero =>
    intro f₂ s h₁ _
    have hs : s = [] := List.length_eq_zero.mp (Nat.le_zero.mp h₁)
    subst hs
    cases f₂ <;> rfl
  | succ f ih =>
    intro f₂ s h₁ h₂
    cases s with
    | nil => cases f₂ <;> rfl
    | cons c cs =>
      cases f₂ with
      | zero => exact absurd h₂ (by simp)
      | succ f₂' =>
        simp only [replaceAllGo]
        have hcs : cs.length ≤ f := by simpa using h₁
        have hcs₂ : cs.length ≤ f₂' := by simpa using h₂
        by_cases hc : tok.isPrefixOf (c :: cs) = true ∧ tok ≠ []
        · rw [if_pos hc, if_pos hc]
          have hd : (cs.drop (tok.length - 1)).length ≤ cs.length := by
            simp [List.length_drop]
          rw [ih f₂' (cs.drop (tok.length - 1)) (le_trans hd hcs) (le_trans hd hcs₂)]
        · rw [if_neg hc, if_neg hc]
          rw [ih f₂' cs hcs hcs₂]

theorem replaceAll_nil (tok rep : JStr) : replaceAll tok rep [] = [] := rfl

theorem replaceAll_cons_pos {tok : JStr} (rep : JStr) {c : Char} {cs : JStr}
    (h : tok.isPrefixOf (c :: cs) = true) (hne : tok ≠ []) :
    replaceAll tok rep (c :: cs) =
      rep ++ replaceAll tok rep (cs.drop (tok.length - 1)) := by
  unfold replaceAll
  simp only [List.length_cons, replaceAllGo]
  rw [if_pos ⟨h, hne⟩]
  congr 1
  exact replaceAllGo_fuel tok rep cs.length (cs.drop (tok.length - 1)).length
    (cs.drop (tok.length - 1)) (by simp [List.length_drop]) (le_refl _)

theorem replaceAll_cons_neg {tok : JStr} (rep : JStr) {c : Char} {cs : JStr}
    (h : ¬(tok.isPrefixOf (c :: cs) = true ∧ tok ≠ [])) :
    replaceAll tok rep (c :: cs) = c :: replaceAll tok rep cs := by
  unfold replaceAll
  simp only [List.length_cons, replaceAllGo]
  rw [if_neg h]

theorem isPrefixOf_append_self : ∀ (l s : JStr), l.isPrefixOf (l ++ s) = true := by
  intro l
  induction l with
  | nil => intro s; simp [List.isPrefixOf]
  | cons c cs ih => intro s; simp only [List.cons_append, List.isPrefixOf]; simp [ih]

/-- An occurrence of the token sitting at the head of the subject is
replaced and the scan continues after it. -/
theorem replaceAll_head (tok rep s : JStr) (hne : tok ≠ []) :
    replaceAll tok rep (tok ++ s) = rep ++ replaceAll tok rep s := by
  cases tok with
  | nil => exact absurd rfl hne
  | cons t ts =>
    have hpre : (t :: ts).isPrefixOf (t :: (ts ++ s)) = true := by
      rw [← List.cons_append]
      exact isPrefixOf_append_self _ _
    rw [List.cons_append, replaceAll_cons_pos rep hpre hne]
    have hdrop : (ts ++ s).drop ((t :: ts).length - 1) = s := by
      simp [List.drop_left]
    rw [hdrop]

/-! ## Data model of the group-event policy engine (`connect.js`) -/

/-- `inf.action` of a `group-participants.update` event. -/
inductive MembershipAction
  | add
  | remove
  | promote
  | demote
deriving DecidableEq

/-- `jsonGp.exit` of a per-group configuration record. -/
structure ExitCfg where
  enabled : Bool
  text : Option JStr
  image : Option JStr
deriving DecidableEq

/-- The fields of the per-group JSON record (`database/grupos/<id>.json`)
read by the membership-event handler.  `blacklist` maps a participant jid
to the recorded reason; `welcomeImage` is `jsonGp.welcome?.image` with
`none` for an absent (or falsy) value. -/
structure GroupConfig where
  x9 : Bool
  antifake : Bool
  antipt : Bool
  blacklist : List (JStr × JStr)
  bemvindo : Bool
  textbv : Option JStr
  welcomeImage : Option JStr
  exit : Option ExitCfg
deriving DecidableEq

/-- The group metadata used by the handler: subject, optional description
and participant list. -/
structure GroupMetadata where
  subject : JStr
  desc : Option JStr
  participants : List JStr
deriving DecidableEq

/-- A `group-participants.update` payload: group id, action, affected
participants (the handler only ever reads the first) and optional author. -/
structure MembershipEvent where
  id : JStr
  action : MembershipAction
  participants : List JStr
  author : Option JStr

/-- The ambient state the handler consults: the session's own jid
(`NazunaSock.user.id`), the metadata cache entry, the result a network
metadata fetch would return (`none` = fetch failure), the parsed group
config file (`none` = missing or unparseable) and the result of a
profile-picture fetch (`none` = fetch failure). -/
structure HandlerEnv where
  botId : JStr
  cachedMeta : Option GroupMetadata
  fetchedMeta : Option GroupMetadata
  config : Option GroupConfig
  profilePicUrl : Option JStr

/-- Outcome oracle for the handler's outbound network calls
(`groupParticipantsUpdate` / `sendMessage`), in call order: `none` means
the call succeeds, `some msg` means it throws an error whose `.message`
is `msg`. -/
abbrev SendOracle := Nat → Option JStr

/-- The all-success oracle: every outbound call completes normally. -/
def oracleOk : SendOracle := fun _ => none

/-- Image content of an outbound message: a direct URL or the generated
welcome banner built on the given avatar URL. -/
inductive ImageSrc
  | url (u : JStr)
  | banner (avatar : JStr)
deriving DecidableEq

/-- One observable step of the membership-event handler. -/
inductive Effect
  | metaFetch (gid : JStr)
  | configRead (gid : JStr)
  | removeParticipant (gid p : JStr)
  | sendText (gid text : JStr) (mentions : List JStr)
  | sendImage (gid : JStr) (img : ImageSrc) (caption : JStr) (mentions : List JStr)
  | profilePicFetch (p : JStr)
  | logError (msg : JStr)
deriving DecidableEq

/-! ## Message texts (string templates of `connect.js`) -/

/-- `` `@${p.split('@')[0]}` ``: the mention rendering of a jid. -/
def mentionOf (p : JStr) : JStr := '@' :: splitAtSign p

/-- The promote/demote announcement of the `x9` rule. -/
def x9Text (p by_ : JStr) (action : MembershipAction) : JStr :=
  "🚨 Atenção! ".data ++ mentionOf p ++ " foi ".data ++
    (if action = .promote then "promovido a administrador".data
     else "rebaixado de administrador".data) ++
    " por ".data ++ mentionOf by_ ++ ".".data

/-- The anti-fake removal notification. -/
def antifakeText (p : JStr) : JStr :=
  "🚫 ".data ++ mentionOf p ++
    " foi removido por suspeita de número falso (código de país não permitido).".data

/-- The anti-PT removal notification. -/
def antiptText (p : JStr) : JStr :=
  "🇵🇹 ".data ++ mentionOf p ++
    " foi removido por ser um número de Portugal (anti-PT ativado).".data

/-- The blacklist removal notification, templated with the stored reason. -/
def blacklistText (p reason : JStr) : JStr :=
  "🚫 ".data ++ mentionOf p ++
    " foi removido do grupo por estar na lista negra. Motivo: ".data ++ reason

/-- `console.error` text of the blacklist branch's catch. -/
def blacklistErrText (gid msg : JStr) : JStr :=
  "❌ Erro ao remover usuário da lista negra no grupo ".data ++ gid ++
    ": ".data ++ msg

/-- `console.error` text of the welcome branch's catch. -/
def welcomeErrText (gid msg : JStr) : JStr :=
  "❌ Erro ao enviar mensagem de boas-vindas no grupo ".data ++ gid ++
    ": ".data ++ msg

/-- `console.error` text of the exit branch's catch. -/
def exitErrText (gid msg : JStr) : JStr :=
  "❌ Erro ao enviar mensagem de saída no grupo ".data ++ gid ++ ": ".data ++ msg

/-- The generated default welcome text. -/
def defaultWelcomeText (p : JStr) (md : GroupMetadata) : JStr :=
  "🎉 Bem-vindo(a), ".data ++ mentionOf p ++ "! Você entrou no grupo *".data ++
    md.subject ++ "*. Leia as regras e aproveite! Membros: ".data ++
    (toString md.participants.length).data ++ ". Descrição: ".data ++
    jsOrStr md.desc "Nenhuma".data ++ ".".data

/-- The generated default exit text. -/
def defaultExitText (p : JStr) (md : GroupMetadata) : JStr :=
  "👋 ".data ++ mentionOf p ++ " saiu do grupo *".data ++ md.subject ++
    "*. Até mais! Membros restantes: ".data ++
    (toString md.participants.length).data ++ ".".data

/-- The fallback avatar used when the profile-picture fetch fails. -/
def defaultAvatarUrl : JStr :=
  "https://raw.githubusercontent.com/nazuninha/uploads/main/outros/1747053564257_bzswae.bin".data

/-- The placeholder-substitution chain the welcome and exit branches apply
to their template: `#numerodele#`, `#nomedogp#`, `#desc#` and `#membros#`
in that order, each via JS `replaceAll`. -/
def formatGroupText (template p : JStr) (md : GroupMetadata) : JStr :=
  replaceAll "#membros#".data (toString md.participants.length).data
    (replaceAll "#desc#".data (jsOrStr md.desc [])
      (replaceAll "#nomedogp#".data md.subject
        (replaceAll "#numerodele#".data (mentionOf p) template)))

/-! ## The rule blocks of the `group-participants.update` handler

Each block mirrors one `if` statement of the handler body.  A block takes
the index of the next outbound call and returns the effects it performs,
the next call index, and a control-flow verdict: `next` (fall through to
the following block), `stop` (the blacklist branch's `return`), or
`escape` (an error thrown outside any `try`, aborting the handler). -/

inductive Flow
  | next
  | stop
  | escape
deriving DecidableEq

/-- The `x9` promote/demote announcement.  The `sendMessage` is not inside
a `try`, so a send failure escapes the handler. -/
def x9Block (cfg : GroupConfig) (ev : MembershipEvent) (p : JStr)
    (oracle : SendOracle) (i : Nat) : List Effect × Nat × Flow :=
  if (ev.action = .promote ∨ ev.action = .demote) ∧ cfg.x9 then
    let by_ := jsOrStr ev.author "alguém".data
    let eff := Effect.sendText ev.id (x9Text p by_ ev.action) [p, by_]
    match oracle i with
    | none => ([eff], i + 1, .next)
    | some _ => ([eff], i + 1, .escape)
  else ([], i, .next)

/-- The anti-fake rule: on `add`, if the first two digits of the number
are not `55` or `35`, remove and notify.  Neither call is inside a `try`. -/
def antifakeBlock (cfg : GroupConfig) (ev : MembershipEvent) (p : JStr)
    (oracle : SendOracle) (i : Nat) : List Effect × Nat × Flow :=
  if ev.action = .add ∧ cfg.antifake then
    let cc := (splitAtSign p).take 2
    if ¬(cc = "55".data ∨ cc = "35".data) then
      let r := Effect.removeParticipant ev.id p
      match oracle i with
      | some _ => ([r], i + 1, .escape)
      | none =>
        let s := Effect.sendText ev.id (antifakeText p) [p]
        match oracle (i + 1) with
        | some _ => ([r, s], i + 2, .escape)
        | none => ([r, s], i + 2, .next)
    else ([], i, .next)
  else ([], i, .next)

/-- The anti-PT rule: on `add`, if the first three digits are `351`,
remove and notify.  Neither call is inside a `try`. -/
def antiptBlock (cfg : GroupConfig) (ev : MembershipEvent) (p : JStr)
    (oracle : SendOracle) (i : Nat) : List Effect × Nat × Flow :=
  if ev.action = .add ∧ cfg.antipt then
    let cc := (splitAtSign p).take 3
    if cc = "351".data then
      let r := Effect.removeParticipant ev.id p
      match oracle i with
      | some _ => ([r], i + 1, .escape)
      | none =>
        let s := Effect.sendText ev.id (antiptText p) [p]
        match oracle (i + 1) with
        | some _ => ([r, s], i + 2, .escape)
        | none => ([r, s], i + 2, .next)
    else ([], i, .next)
  else ([], i, .next)

/-- The blacklist rule: on `add` of a blacklisted jid, remove and notify
inside a `try` whose catch logs, then `return` unconditionally (the
`return` sits after the `try`/`catch`). -/
def blacklistBlock (cfg : GroupConfig) (ev : MembershipEvent) (p : JStr)
    (oracle : SendOracle) (i : Nat) : List Effect × Nat × Flow :=
  if ev.action = .add then
    match cfg.blacklist.lookup p with
    | none => ([], i, .next)
    | some reason =>
      let r := Effect.removeParticipant ev.id p
      match oracle i with
      | some msg => ([r, .logError (blacklistErrText ev.id msg)], i + 1, .stop)
      | none =>
        let s := Effect.sendText ev.id (blacklistText p reason) [p]
        match oracle (i + 1) with
        | some msg => ([r, s, .logError (blacklistErrText ev.id msg)], i + 2, .stop)
        | none => ([r, s], i + 2, .stop)
  else ([], i, .next)

/-- The welcome rule: on `add` with `bemvindo`, build and substitute the
template, resolve an optional image (profile picture is fetched whenever
an image is configured; the banner is used for the sentinel value), and
send — all inside a `try` whose catch logs. -/
def welcomeBlock (env : HandlerEnv) (cfg : GroupConfig) (md : GroupMetadata)
    (ev : MembershipEvent) (p : JStr) (oracle : SendOracle) (i : Nat) :
    List Effect × Nat × Flow :=
  if ev.action = .add ∧ cfg.bemvindo then
    let welcomeText :=
      match cfg.textbv with
      | some t => if 1 < t.length then t else defaultWelcomeText p md
      | none => defaultWelcomeText p md
    let formatted := formatGroupText welcomeText p md
    match cfg.welcomeImage with
    | some img =>
      let profilePic := env.profilePicUrl.getD defaultAvatarUrl
      let image := if img ≠ "banner".data then ImageSrc.url img
                   else ImageSrc.banner profilePic
      let s := Effect.sendImage ev.id image formatted [p]
      match oracle i with
      | some msg =>
        ([.profilePicFetch p, s, .logError (welcomeErrText ev.id msg)], i + 1, .next)
      | none => ([.profilePicFetch p, s], i + 1, .next)
    | none =>
      let s := Effect.sendText ev.id formatted [p]
      match oracle i with
      | some msg => ([s, .logError (welcomeErrText ev.id msg)], i + 1, .next)
      | none => ([s], i + 1, .next)
  else ([], i, .next)

/-- The exit rule: on `remove` with `exit.enabled`, mirror the welcome flow
(direct URL image only), inside a `try` whose catch logs. -/
def exitBlock (cfg : GroupConfig) (md : GroupMetadata) (ev : MembershipEvent)
    (p : JStr) (oracle : SendOracle) (i : Nat) : List Effect × Nat × Flow :=
  match cfg.exit with
  | none => ([], i, .next)
  | some ecfg =>
    if ev.action = .remove ∧ ecfg.enabled then
      let exitText :=
        match ecfg.text with
        | some t => if 1 < t.length then t else defaultExitText p md
        | none => defaultExitText p md
      let formatted := formatGroupText exitText p md
      match ecfg.image with
      | some img =>
        let s := Effect.sendImage ev.id (ImageSrc.url img) formatted [p]
        match oracle i with
        | some msg => ([s, .logError (exitErrText ev.id msg)], i + 1, .next)
        | none => ([s], i + 1, .next)
      | none =>
        let s := Effect.sendText ev.id formatted [p]
        match oracle i with
        | some msg => ([s, .logError (exitErrText ev.id msg)], i + 1, .next)
        | none => ([s], i + 1, .next)
    else ([], i, .next)

/-- Sequences two blocks: the second runs only when the first fell
through (`next`); `stop` and `escape` short-circuit. -/
def chain (prev : List Effect × Nat × Flow)
    (next : Nat → List Effect × Nat × Flow) : List Effect × Nat × Flow :=
  match prev with
  | (es, i, .next) =>
    let r := next i
    (es ++ r.1, r.2.1, r.2.2)
  | other => other

/-- The six rule blocks of the handler, in source order. -/
def runRules (env : HandlerEnv) (cfg : GroupConfig) (md : GroupMetadata)
    (ev : MembershipEvent) (p : JStr) (oracle : SendOracle) :
    List Effect × Nat × Flow :=
  chain (chain (chain (chain (chain
    (x9Block cfg ev p oracle 0)
    (antifakeBlock cfg ev p oracle))
    (antiptBlock cfg ev p oracle))
    (blacklistBlock cfg ev p oracle))
    (welcomeBlock env cfg md ev p oracle))
    (exitBlock cfg md ev p oracle)

/-- Result of one delivery of a `group-participants.update` event: the
effects performed, and whether an exception escaped the handler. -/
structure HandlerResult where
  effects : List Effect
  escaped : Bool
deriving DecidableEq

/-- The `group-participants.update` handler.  An empty participant list
makes `inf.participants[0]` undefined, so the `.startsWith` call throws
(escapes) before any effect.  Otherwise: self-filter, metadata via cache
or fetch (silently giving up on fetch failure), fresh config read
(silently giving up when missing/unparseable), then the rule blocks. -/
def handleParticipantsUpdate (env : HandlerEnv) (ev : MembershipEvent)
    (oracle : SendOracle) : HandlerResult :=
  match ev.participants with
  | [] => ⟨[], true⟩
  | p :: _ =>
    if (splitColon env.botId).isPrefixOf p then ⟨[], false⟩
    else
      let pre : List Effect × Option GroupMetadata :=
        match env.cachedMeta with
        | some md => ([], some md)
        | none =>
          match env.fetchedMeta with
          | some md => ([Effect.metaFetch ev.id], some md)
          | none => ([Effect.metaFetch ev.id], none)
      match pre with
      | (es, none) => ⟨es, false⟩
      | (es, some md) =>
        let es := es ++ [Effect.configRead ev.id]
        match env.config with
        | none => ⟨es, false⟩
        | some cfg =>
          let r := runRules env cfg md ev p oracle
          ⟨es ++ r.1, r.2.2 == .escape⟩

/-! ## Block-level lemmas -/

/-- What the anti-fake rule contributes on a successful `add` event. -/
def antifakeEffectsOk (cfg : GroupConfig) (g p : JStr) : List Effect :=
  if cfg.antifake ∧
      ¬((splitAtSign p).take 2 = "55".data ∨ (splitAtSign p).take 2 = "35".data) then
    [.removeParticipant g p, .sendText g (antifakeText p) [p]]
  else []

/-- What the anti-PT rule contributes on a successful `add` event. -/
def antiptEffectsOk (cfg : GroupConfig) (g p : JStr) : List Effect :=
  if cfg.antipt ∧ (splitAtSign p).take 3 = "351".data then
    [.removeParticipant g p, .sendText g (antiptText p) [p]]
  else []

theorem x9Block_add (cfg : GroupConfig) (ev : MembershipEvent) (p : JStr)
    (oracle : SendOracle) (h : ev.action = .add) :
    ∀ i, x9Block cfg ev p oracle i = ([], i, .next) := by
  intro i
  simp [x9Block, h]

theorem antifakeBlock_ok (cfg : GroupConfig) (ev : MembershipEvent) (p : JStr)
    (h : ev.action = .add) :
    ∀ i, antifakeBlock cfg ev p oracleOk i =
      (antifakeEffectsOk cfg ev.id p,
       i + (antifakeEffectsOk cfg ev.id p).length, .next) := by
  intro i
  by_cases ha : cfg.antifake = true
  · by_cases hcc : (splitAtSign p).take 2 = "55".data ∨ (splitAtSign p).take 2 = "35".data
    · simp [antifakeBlock, antifakeEffectsOk, h, ha, hcc, oracleOk]
    · simp [antifakeBlock, antifakeEffectsOk, h, ha, hcc, oracleOk]
  · simp [antifakeBlock, antifakeEffectsOk, h, ha, oracleOk]

theorem antiptBlock_ok (cfg : GroupConfig) (ev : MembershipEvent) (p : JStr)
    (h : ev.action = .add) :
    ∀ i, antiptBlock cfg ev p oracleOk i =
      (antiptEffectsOk cfg ev.id p,
       i + (antiptEffectsOk cfg ev.id p).length, .next) := by
  intro i
  by_cases ha : cfg.antipt = true
  · by_cases hcc : (splitAtSign p).take 3 = "351".data
    · simp [antiptBlock, antiptEffectsOk, h, ha, hcc, oracleOk]
    · simp [antiptBlock, antiptEffectsOk, h, ha, hcc, oracleOk]
  · simp [antiptBlock, antiptEffectsOk, h, ha, oracleOk]

theorem blacklistBlock_hit (cfg : GroupConfig) (ev : MembershipEvent) (p : JStr)
    (reason : JStr) (h : ev.action = .add)
    (hb : cfg.blacklist.lookup p = some reason) :
    ∀ i, blacklistBlock cfg ev p oracleOk i =
      ([.removeParticipant ev.id p,
        .sendText ev.id (blacklistText p reason) [p]], i + 2, .stop) := by
  intro i
  simp [blacklistBlock, h, hb, oracleOk]

/-- The blacklist branch never lets an exception escape: both its calls sit
inside the `try`. -/
theorem blacklistBlock_no_escape (cfg : GroupConfig) (ev : MembershipEvent)
    (p : JStr) (oracle : SendOracle) (i : Nat) :
    (blacklistBlock cfg ev p oracle i).2.2 ≠ .escape := by
  unfold blacklistBlock
  (repeat' split) <;> simp

/-- The welcome branch always falls through: its `try` catches everything
and there is no `return`. -/
theorem welcomeBlock_flow (env : HandlerEnv) (cfg : GroupConfig)
    (md : GroupMetadata) (ev : MembershipEvent) (p : JStr) (oracle : SendOracle)
    (i : Nat) : (welcomeBlock env cfg md ev p oracle i).2.2 = .next := by
  unfold welcomeBlock
  (repeat' split) <;> simp

/-- The exit branch always falls through, like the welcome branch. -/
theorem exitBlock_flow (cfg : GroupConfig) (md : GroupMetadata)
    (ev : MembershipEvent) (p : JStr) (oracle : SendOracle) (i : Nat) :
    (exitBlock cfg md ev p oracle i).2.2 = .next := by
  unfold exitBlock
  (repeat' split) <;> simp

theorem chain_next (es : List Effect) (i : Nat)
    (f : Nat → List Effect × Nat × Flow) :
    chain (es, i, .next) f = (es ++ (f i).1, (f i).2.1, (f i).2.2) := rfl

theorem chain_stop (es : List Effect) (i : Nat)
    (f : Nat → List Effect × Nat × Flow) :
    chain (es, i, .stop) f = (es, i, .stop) := rfl

/-- Sequencing preserves the already-performed effects as a prefix and
never introduces an escape that neither side produces. -/
theorem chain_decomp (prev : List Effect × Nat × Flow)
    (f : Nat → List Effect × Nat × Flow) (hprev : prev.2.2 ≠ .escape)
    (hf : ∀ j, (f j).2.2 ≠ .escape) :
    ∃ tail, (chain prev f).1 = prev.1 ++ tail ∧
      (chain prev f).2.2 ≠ .escape := by
  obtain ⟨es, i, fl⟩ := prev
  cases fl with
  | next => exact ⟨(f i).1, rfl, hf i⟩
  | stop => exact ⟨[], by simp [chain_stop], by simp [chain_stop]⟩
  | escape => exact absurd rfl hprev

/-- Unfolds the handler down to the rule blocks in the common case:
non-empty participants, self-filter passes, metadata served from cache,
config file readable. -/
theorem handle_unfold_cached (env : HandlerEnv) (ev : MembershipEvent)
    (oracle : SendOracle) (p : JStr) (rest : List JStr) (md : GroupMetadata)
    (cfg : GroupConfig) (h2 : ev.participants = p :: rest)
    (h3 : (splitColon env.botId).isPrefixOf p = false)
    (h4 : env.cachedMeta = some md) (h5 : env.config = some cfg) :
    handleParticipantsUpdate env ev oracle =
      ⟨Effect.configRead ev.id :: (runRules env cfg md ev p oracle).1,
       (runRules env cfg md ev p oracle).2.2 == .escape⟩ := by
  unfold handleParticipantsUpdate
  rw [h2]
  simp [h3, h4, h5]

theorem takeWhile_isPrefixOf (q : Char → Bool) :
    ∀ l : JStr, (l.takeWhile q).isPrefixOf l = true := by
  intro l
  induction l with
  | nil => simp [List.isPrefixOf]
  | cons c cs ih =>
    by_cases hq : q c
    · simp only [List.takeWhile_cons, hq, if_true, List.isPrefixOf]
      simp [ih]
    · simp [List.takeWhile_cons, hq, List.isPrefixOf]

/-- On an `add` event with all sends succeeding, the rule trace starts with
the anti-fake contribution, then anti-PT, then whatever the later rules
add, and nothing escapes. -/
theorem runRules_add_decomp (env : HandlerEnv) (cfg : GroupConfig)
    (md : GroupMetadata) (ev : MembershipEvent) (p : JStr)
    (h1 : ev.action = .add) :
    ∃ tail, (runRules env cfg md ev p oracleOk).1 =
        antifakeEffectsOk cfg ev.id p ++ antiptEffectsOk cfg ev.id p ++ tail ∧
      (runRules env cfg md ev p oracleOk).2.2 ≠ .escape := by
  unfold runRules
  simp only [x9Block_add cfg ev p oracleOk h1, antifakeBlock_ok cfg ev p h1,
    antiptBlock_ok cfg ev p h1, chain_next, List.nil_append]
  rcases hb : blacklistBlock cfg ev p oracleOk
      (0 + (antifakeEffectsOk cfg ev.id p).length +
        (antiptEffectsOk cfg ev.id p).length) with ⟨es₁, i₁, fl₁⟩
  have hfl₁ : fl₁ ≠ .escape := by
    have h := blacklistBlock_no_escape cfg ev p oracleOk
      (0 + (antifakeEffectsOk cfg ev.id p).length +
        (antiptEffectsOk cfg ev.id p).length)
    rw [hb] at h
    exact h
  cases fl₁ with
  | escape => exact absurd rfl hfl₁
  | stop =>
    refine ⟨es₁, ?_, ?_⟩ <;> simp [chain_stop, List.append_assoc]
  | next =>
    simp only [chain_next]
    rcases hw : welcomeBlock env cfg md ev p oracleOk i₁ with ⟨es₂, i₂, fl₂⟩
    have hfl₂ : fl₂ = .next := by
      have h := welcomeBlock_flow env cfg md ev p oracleOk i₁
      rw [hw] at h
      exact h
    subst hfl₂
    simp only [chain_next]
    refine ⟨es₁ ++ (es₂ ++ (exitBlock cfg md ev p oracleOk i₂).1), ?_, ?_⟩
    · simp [List.append_assoc]
    · simp [exitBlock_flow]

/-- C1: on an `add` event whose participant passes the self-filter, the
engine evaluates anti-fake, anti-PT, blacklist and welcome in exactly that
order, and a blacklisted participant is removed, notified with the
templated reason, and terminates the evaluation: even with `bemvindo`
enabled, no welcome effect ever follows the blacklist action. -/
theorem C1_blacklist_terminal_order (env : HandlerEnv) (ev : MembershipEvent)
    (p : JStr) (rest : List JStr) (md : GroupMetadata) (cfg : GroupConfig)
    (reason : JStr) (h1 : ev.action = .add) (h2 : ev.participants = p :: rest)
    (h3 : (splitColon env.botId).isPrefixOf p = false)
    (h4 : env.cachedMeta = some md) (h5 : env.config = some cfg)
    (h6 : cfg.blacklist.lookup p = some reason) (_h7 : cfg.bemvindo = true) :
    handleParticipantsUpdate env ev oracleOk =
      ⟨Effect.configRead ev.id ::
        (antifakeEffectsOk cfg ev.id p ++ antiptEffectsOk cfg ev.id p ++
          [Effect.removeParticipant ev.id p,
           Effect.sendText ev.id (blacklistText p reason) [p]]), false⟩ := by
  rw [handle_unfold_cached env ev oracleOk p rest md cfg h2 h3 h4 h5]
  unfold runRules
  simp [x9Block_add cfg ev p oracleOk h1, antifakeBlock_ok cfg ev p h1,
    antiptBlock_ok cfg ev p h1, blacklistBlock_hit cfg ev p reason h1 h6,
    chain_next, chain_stop, List.append_assoc]

/-- Concrete group metadata used by witnesses: subject `Grupo`, a short
description, three participants. -/
def mdW : GroupMetadata :=
  ⟨"Grupo".data, some "regras".data,
   ["5511@s.whatsapp.net".data, "5522@s.whatsapp.net".data, "5533@s.whatsapp.net".data]⟩

/-- Witness configuration for C1: anti-fake on, anti-PT off, one
blacklisted jid, welcome enabled. -/
def cfgW1 : GroupConfig :=
  { x9 := false, antifake := true, antipt := false,
    blacklist := [("12345@s.whatsapp.net".data, "spam".data)],
    bemvindo := true, textbv := none, welcomeImage := none, exit := none }

/-- Witness environment for C1. -/
def envW1 : HandlerEnv :=
  { botId := "5599:7@s.whatsapp.net".data, cachedMeta := some mdW,
    fetchedMeta := none, config := some cfgW1, profilePicUrl := none }

/-- Witness event for C1: an `add` of the blacklisted (and fake-prefixed)
participant. -/
def evW1 : MembershipEvent :=
  { id := "g1@g.us".data, action := .add,
    participants := ["12345@s.whatsapp.net".data], author := none }

theorem C1_blacklist_terminal_order_witness :
    cfgW1.blacklist.lookup "12345@s.whatsapp.net".data = some "spam".data ∧
    cfgW1.bemvindo = true ∧
    handleParticipantsUpdate envW1 evW1 oracleOk =
      ⟨[Effect.configRead "g1@g.us".data,
        Effect.removeParticipant "g1@g.us".data "12345@s.whatsapp.net".data,
        Effect.sendText "g1@g.us".data (antifakeText "12345@s.whatsapp.net".data)
          ["12345@s.whatsapp.net".data],
        Effect.removeParticipant "g1@g.us".data "12345@s.whatsapp.net".data,
        Effect.sendText "g1@g.us".data
          (blacklistText "12345@s.whatsapp.net".data "spam".data)
          ["12345@s.whatsapp.net".data]], false⟩ :=
  ⟨by decide, rfl,
   (C1_blacklist_terminal_order envW1 evW1 "12345@s.whatsapp.net".data []
      mdW cfgW1 "spam".data rfl rfl (by decide) rfl rfl (by decide) rfl).trans
    (by decide)⟩

/-- C5: when the first affected participant's bare identifier equals the
session's own identity (the bot id before the `:`), the handler returns
immediately: no metadata fetch, no config read, no removal, no message,
and no escaping error. -/
theorem C5_self_filter_no_action (env : HandlerEnv) (ev : MembershipEvent)
    (oracle : SendOracle) (p : JStr) (rest : List JStr)
    (h2 : ev.participants = p :: rest)
    (hbare : splitAtSign p = splitColon env.botId) :
    handleParticipantsUpdate env ev oracle = ⟨[], false⟩ := by
  have hpre : (splitColon env.botId).isPrefixOf p = true := by
    rw [← hbare]
    exact takeWhile_isPrefixOf _ p
  unfold handleParticipantsUpdate
  rw [h2]
  simp [hpre]

/-- Witness environment for C5: the bot's own bare number. -/
def envW5 : HandlerEnv :=
  { botId := "5599:7@s.whatsapp.net".data, cachedMeta := some mdW,
    fetchedMeta := none, config := some cfgW1, profilePicUrl := none }

/-- Witness event for C5: the bot's own jid joins. -/
def evW5 : MembershipEvent :=
  { id := "g1@g.us".data, action := .add,
    participants := ["5599@s.whatsapp.net".data], author := none }

theorem C5_self_filter_no_action_witness :
    splitAtSign "5599@s.whatsapp.net".data = splitColon envW5.botId ∧
    handleParticipantsUpdate envW5 evW5 oracleOk = ⟨[], false⟩ :=
  ⟨by decide,
   C5_self_filter_no_action envW5 evW5 oracleOk "5599@s.whatsapp.net".data []
     rfl (by decide)⟩

/-- C9: when the per-group configuration record is unreadable (missing or
unparseable JSON), the event is silently ignored: nothing escapes and the
only effects are at most the metadata fetch and the config read attempt —
no rule runs, no removal, no message. -/
theorem C9_missing_config_silent (env : HandlerEnv) (ev : MembershipEvent)
    (oracle : SendOracle) (p : JStr) (rest : List JStr)
    (h2 : ev.participants = p :: rest)
    (h3 : (splitColon env.botId).isPrefixOf p = false)
    (h5 : env.config = none) :
    (handleParticipantsUpdate env ev oracle).escaped = false ∧
    ∀ e ∈ (handleParticipantsUpdate env ev oracle).effects,
      e = Effect.metaFetch ev.id ∨ e = Effect.configRead ev.id := by
  unfold handleParticipantsUpdate
  rw [h2]
  cases hcm : env.cachedMeta with
  | some md => simp [h3, h5]
  | none =>
    cases hfm : env.fetchedMeta with
    | some md => simp [h3, hcm, hfm, h5]
    | none => simp [h3, hcm, hfm]

/-- Witness environment for C9: config file unreadable, metadata cached. -/
def envW9 : HandlerEnv :=
  { botId := "5599:7@s.whatsapp.net".data, cachedMeta := some mdW,
    fetchedMeta := none, config := none, profilePicUrl := none }

theorem C9_missing_config_silent_witness :
    envW9.config = none ∧
    ((handleParticipantsUpdate envW9 evW1 oracleOk).escaped = false ∧
     ∀ e ∈ (handleParticipantsUpdate envW9 evW1 oracleOk).effects,
       e = Effect.metaFetch evW1.id ∨ e = Effect.configRead evW1.id) :=
  ⟨rfl,
   C9_missing_config_silent envW9 evW1 oracleOk "12345@s.whatsapp.net".data []
     rfl (by decide) rfl⟩

/-- C7: on an `add` event with `antifake` enabled and a country code
outside `{55, 35}`, the anti-fake rule contributes exactly one removal and
exactly one notification bearing the anti-fake reason text, and they are
the first two outbound actions of the event (right after the config
read). -/
theorem C7_antifake_exactly_once (env : HandlerEnv) (ev : MembershipEvent)
    (p : JStr) (rest : List JStr) (md : GroupMetadata) (cfg : GroupConfig)
    (h1 : ev.action = .add) (h2 : ev.participants = p :: rest)
    (h3 : (splitColon env.botId).isPrefixOf p = false)
    (h4 : env.cachedMeta = some md) (h5 : env.config = some cfg)
    (haf : cfg.antifake = true)
    (hcc : ¬((splitAtSign p).take 2 = "55".data ∨
             (splitAtSign p).take 2 = "35".data)) :
    antifakeEffectsOk cfg ev.id p =
      [Effect.removeParticipant ev.id p,
       Effect.sendText ev.id (antifakeText p) [p]] ∧
    ∃ tail, handleParticipantsUpdate env ev oracleOk =
      ⟨Effect.configRead ev.id :: Effect.removeParticipant ev.id p ::
        Effect.sendText ev.id (antifakeText p) [p] :: tail, false⟩ := by
  have hafe : antifakeEffectsOk cfg ev.id p =
      [Effect.removeParticipant ev.id p,
       Effect.sendText ev.id (antifakeText p) [p]] := by
    simp [antifakeEffectsOk, haf, hcc]
  refine ⟨hafe, ?_⟩
  obtain ⟨tail, hdec, hesc⟩ := runRules_add_decomp env cfg md ev p h1
  refine ⟨antiptEffectsOk cfg ev.id p ++ tail, ?_⟩
  rw [handle_unfold_cached env ev oracleOk p rest md cfg h2 h3 h4 h5]
  have heff : (runRules env cfg md ev p oracleOk).1 =
      Effect.removeParticipant ev.id p ::
        Effect.sendText ev.id (antifakeText p) [p] ::
          (antiptEffectsOk cfg ev.id p ++ tail) := by
    rw [hdec, hafe]
    simp [List.append_assoc]
  have hb : ((runRules env cfg md ev p oracleOk).2.2 == Flow.escape) = false :=
    beq_eq_false_iff_ne.mpr hesc
  rw [heff, hb]

theorem C7_antifake_exactly_once_witness :
    cfgW1.antifake = true ∧
    ¬((splitAtSign "12345@s.whatsapp.net".data).take 2 = "55".data ∨
      (splitAtSign "12345@s.whatsapp.net".data).take 2 = "35".data) ∧
    ∃ tail, handleParticipantsUpdate envW1 evW1 oracleOk =
      ⟨Effect.configRead evW1.id ::
        Effect.removeParticipant evW1.id "12345@s.whatsapp.net".data ::
        Effect.sendText evW1.id (antifakeText "12345@s.whatsapp.net".data)
          ["12345@s.whatsapp.net".data] :: tail, false⟩ :=
  ⟨rfl, by decide,
   (C7_antifake_exactly_once envW1 evW1 "12345@s.whatsapp.net".data [] mdW cfgW1
      rfl rfl (by decide) rfl rfl rfl (by decide)).2⟩

/-- A stretch in which no occurrence of the scanned token starts is copied
verbatim by `replaceAll`. -/
theorem replaceAll_skip_strays (T val : JStr) (a s : JStr)
    (h : ∀ k, k < a.length → T.isPrefixOf (a.drop k ++ s) = false) :
    replaceAll T val (a ++ s) = a ++ replaceAll T val s := by
  induction a with
  | nil => simp
  | cons c a' ih =>
    have h0 : T.isPrefixOf (c :: (a' ++ s)) = false := by
      have hh := h 0 (by simp)
      simpa using hh
    rw [List.cons_append, replaceAll_cons_neg val (by simp [h0]),
      ih (fun k hk => by simpa using h (k + 1) (by simpa using Nat.succ_lt_succ hk))]
    simp

/-- One pass's view of the text: occurrences of the pass's token, and
inert stretches. -/
inductive Piece
  | hit
  | inert (s : JStr)
deriving DecidableEq

/-- The text a piece list stands for, before the pass. -/
def renderPieces (T : JStr) : List Piece → JStr
  | [] => []
  | .hit :: rest => T ++ renderPieces T rest
  | .inert s :: rest => s ++ renderPieces T rest

/-- The text after the pass: every occurrence replaced by the value. -/
def renderPiecesSub (val : JStr) : List Piece → JStr
  | [] => []
  | .hit :: rest => val ++ renderPiecesSub val rest
  | .inert s :: rest => s ++ renderPiecesSub val rest

/-- No occurrence of the token starts inside an inert stretch (possibly
running on into the following text). -/
def noStray (T : JStr) : List Piece → Bool
  | [] => true
  | .hit :: rest => noStray T rest
  | .inert s :: rest =>
    ((List.range s.length).all fun k =>
      !T.isPrefixOf (s.drop k ++ renderPieces T rest)) && noStray T rest

/-- One `replaceAll` pass replaces **every** token occurrence of the piece
list and nothing else. -/
theorem replaceAll_pieces (T val : JStr) (hT : T ≠ []) :
    ∀ pieces : List Piece, noStray T pieces = true →
      replaceAll T val (renderPieces T pieces) = renderPiecesSub val pieces := by
  intro pieces
  induction pieces with
  | nil => intro _; rfl
  | cons pc rest ih =>
    intro h
    cases pc with
    | hit =>
      show replaceAll T val (T ++ renderPieces T rest) =
        val ++ renderPiecesSub val rest
      rw [replaceAll_head T val _ hT, ih (by simpa [noStray] using h)]
    | inert s =>
      simp only [noStray, Bool.and_eq_true, List.all_eq_true, List.mem_range,
        Bool.not_eq_true'] at h
      show replaceAll T val (s ++ renderPieces T rest) =
        s ++ renderPiecesSub val rest
      rw [replaceAll_skip_strays T val s (renderPieces T rest)
          (fun k hk => h.1 k hk), ih h.2]

/-- An element of a parsed template: a literal fragment or one of the four
placeholder tokens of `connect.js`. -/
inductive TItem
  | lit (s : JStr)
  | numerodele
  | nomedogp
  | descTok
  | membros
deriving DecidableEq

/-- The raw template text of an item. -/
def tokText : TItem → JStr
  | .lit s => s
  | .numerodele => "#numerodele#".data
  | .nomedogp => "#nomedogp#".data
  | .descTok => "#desc#".data
  | .membros => "#membros#".data

/-- The template an item list stands for, under the given per-item text. -/
def renderItems (f : TItem → JStr) : List TItem → JStr
  | [] => []
  | it :: rest => f it ++ renderItems f rest

/-- The piece list of one pass: the pass's own token items become `hit`,
everything else is inert with its current text. -/
def piecesFor (target : TItem) (f : TItem → JStr) : List TItem → List Piece
  | [] => []
  | it :: rest =>
    (if it = target then Piece.hit else Piece.inert (f it)) ::
      piecesFor target f rest

/-- Updates the per-item text of one token after its pass. -/
def updateItem (target : TItem) (val : JStr) (f : TItem → JStr) :
    TItem → JStr :=
  fun it => if it = target then val else f it

theorem renderPieces_piecesFor (T : JStr) (target : TItem) (f : TItem → JStr)
    (hf : f target = T) :
    ∀ items, renderPieces T (piecesFor target f items) = renderItems f items := by
  intro items
  induction items with
  | nil => rfl
  | cons it rest ih =>
    by_cases hit : it = target
    · subst hit
      simp [piecesFor, renderPieces, renderItems, hf, ih]
    · simp [piecesFor, renderPieces, renderItems, hit, ih]

theorem renderPiecesSub_piecesFor (val : JStr) (target : TItem)
    (f : TItem → JStr) :
    ∀ items, renderPiecesSub val (piecesFor target f items) =
      renderItems (updateItem target val f) items := by
  intro items
  induction items with
  | nil => rfl
  | cons it rest ih =>
    by_cases hit : it = target
    · subst hit
      simp [piecesFor, renderPiecesSub, renderItems, updateItem, ih]
    · simp [piecesFor, renderPiecesSub, renderItems, updateItem, hit, ih]

/-- Item texts after the `#numerodele#` pass. -/
def stageNum (p : JStr) : TItem → JStr :=
  updateItem .numerodele (mentionOf p) tokText

/-- Item texts after the `#nomedogp#` pass. -/
def stageNome (p : JStr) (md : GroupMetadata) : TItem → JStr :=
  updateItem .nomedogp md.subject (stageNum p)

/-- Item texts after the `#desc#` pass (description, empty when absent). -/
def stageDesc (p : JStr) (md : GroupMetadata) : TItem → JStr :=
  updateItem .descTok (jsOrStr md.desc []) (stageNome p md)

/-- Item texts after the final `#membros#` pass. -/
def stageAll (p : JStr) (md : GroupMetadata) : TItem → JStr :=
  updateItem .membros (toString md.participants.length).data (stageDesc p md)

/-- C8: for every template interleaving literal fragments with any number
of occurrences of each of the four tokens (with no stray token occurrence
arising at any pass), the substitution chain replaces **every** occurrence
of `#numerodele#` by the participant mention, of `#nomedogp#` by the group
subject, of `#desc#` by the description (empty when absent), and of
`#membros#` by the member count — all occurrences, not just the first. -/
theorem C8_placeholders_all_occurrences (items : List TItem) (p : JStr)
    (md : GroupMetadata)
    (h1 : noStray "#numerodele#".data
      (piecesFor .numerodele tokText items) = true)
    (h2 : noStray "#nomedogp#".data
      (piecesFor .nomedogp (stageNum p) items) = true)
    (h3 : noStray "#desc#".data
      (piecesFor .descTok (stageNome p md) items) = true)
    (h4 : noStray "#membros#".data
      (piecesFor .membros (stageDesc p md) items) = true) :
    formatGroupText (renderItems tokText items) p md =
      renderItems (stageAll p md) items := by
  unfold formatGroupText
  have e1 : replaceAll "#numerodele#".data (mentionOf p)
      (renderItems tokText items) = renderItems (stageNum p) items := by
    rw [← renderPieces_piecesFor "#numerodele#".data .numerodele tokText rfl items,
      replaceAll_pieces _ _ (by decide) _ h1, renderPiecesSub_piecesFor]
    exact rfl
  have e2 : replaceAll "#nomedogp#".data md.subject
      (renderItems (stageNum p) items) = renderItems (stageNome p md) items := by
    rw [← renderPieces_piecesFor "#nomedogp#".data .nomedogp (stageNum p) rfl items,
      replaceAll_pieces _ _ (by decide) _ h2, renderPiecesSub_piecesFor]
    exact rfl
  have e3 : replaceAll "#desc#".data (jsOrStr md.desc [])
      (renderItems (stageNome p md) items) =
      renderItems (stageDesc p md) items := by
    rw [← renderPieces_piecesFor "#desc#".data .descTok (stageNome p md) rfl items,
      replaceAll_pieces _ _ (by decide) _ h3, renderPiecesSub_piecesFor]
    exact rfl
  have e4 : replaceAll "#membros#".data (toString md.participants.length).data
      (renderItems (stageDesc p md) items) =
      renderItems (stageAll p md) items := by
    rw [← renderPieces_piecesFor "#membros#".data .membros (stageDesc p md) rfl items,
      replaceAll_pieces _ _ (by decide) _ h4, renderPiecesSub_piecesFor]
    exact rfl
  rw [e1, e2, e3, e4]

/-- Witness metadata for C8: subject `Grupo`, **no** description (the
`#desc#` fallback yields the empty string), three participants. -/
def mdW8 : GroupMetadata :=
  ⟨"Grupo".data, none,
   ["5511@s.whatsapp.net".data, "5522@s.whatsapp.net".data,
    "5533@s.whatsapp.net".data]⟩

/-- Witness template items for C8: all four tokens, `#membros#` twice. -/
def itemsW8 : List TItem :=
  [.lit "Oi ".data, .numerodele, .lit ", bem-vindo ao ".data, .nomedogp,
   .lit "! Desc: ".data, .descTok, .lit " Total: ".data, .membros,
   .lit " e ".data, .membros, .lit "!".data]

theorem C8_placeholders_all_occurrences_witness :
    renderItems tokText itemsW8 =
      "Oi #numerodele#, bem-vindo ao #nomedogp#! Desc: #desc# Total: #membros# e #membros#!".data ∧
    formatGroupText
      "Oi #numerodele#, bem-vindo ao #nomedogp#! Desc: #desc# Total: #membros# e #membros#!".data
      "5511@s.whatsapp.net".data mdW8 =
      "Oi @5511, bem-vindo ao Grupo! Desc:  Total: 3 e 3!".data :=
  ⟨by decide, by
    have h := C8_placeholders_all_occurrences itemsW8 "5511@s.whatsapp.net".data
      mdW8 (by decide) (by decide) (by decide) (by decide)
    rw [show renderItems tokText itemsW8 =
      "Oi #numerodele#, bem-vindo ao #nomedogp#! Desc: #desc# Total: #membros# e #membros#!".data
      from by decide] at h
    exact h.trans (by decide)⟩

/-! ## Session lifecycle: primary close handling (C6) -/

/-- Observable steps of the primary `connection.update` close branch. -/
inductive CloseEffect
  | rmAuthDir
  | endSocket
  | restartNazu
deriving DecidableEq

/-- The primary close branch: classify the reason, delete the credential
directory when the reason is in `[DisconnectReason.loggedOut, 401]`, end
the socket, and call `startNazu()` again.  `loggedOutCode` stands for the
session library's `DisconnectReason.loggedOut` constant. -/
def primaryCloseEffects (loggedOutCode reason : Nat) : List CloseEffect :=
  (if reason ∈ [loggedOutCode, 401] then [.rmAuthDir] else []) ++
    [.endSocket, .restartNazu]

/-- C6: a logged-out or 401 close deletes the credential directory before
the reconnect; any other reason preserves it; and every close re-runs
bootstrap (`startNazu`) as its final step. -/
theorem C6_close_classified_reconnect (lo reason : Nat) :
    ((reason = lo ∨ reason = 401) →
      primaryCloseEffects lo reason =
        [.rmAuthDir, .endSocket, .restartNazu]) ∧
    (¬(reason = lo ∨ reason = 401) →
      primaryCloseEffects lo reason = [.endSocket, .restartNazu] ∧
      CloseEffect.rmAuthDir ∉ primaryCloseEffects lo reason) ∧
    (primaryCloseEffects lo reason).getLast? = some CloseEffect.restartNazu := by
  unfold primaryCloseEffects
  by_cases h : reason = lo ∨ reason = 401
  · have hm : reason ∈ [lo, 401] := by
      rcases h with h | h <;> simp [h]
    simp [hm, h]
  · have hm : reason ∉ [lo, 401] := by
      simp only [List.mem_cons, List.mem_singleton, List.not_mem_nil]
      push_neg
      exact ⟨fun he => h (Or.inl he), fun he => h (Or.inr he), by simp⟩
    simp [hm, h]

theorem C6_close_classified_reconnect_witness :
    ((401 : Nat) = 401 ∨ (401 : Nat) = 401) ∧
    primaryCloseEffects 401 401 =
      [CloseEffect.rmAuthDir, CloseEffect.endSocket, CloseEffect.restartNazu] ∧
    ¬((408 : Nat) = 401 ∨ (408 : Nat) = 401) ∧
    (primaryCloseEffects 401 408 = [CloseEffect.endSocket, CloseEffect.restartNazu] ∧
     CloseEffect.rmAuthDir ∉ primaryCloseEffects 401 408) :=
  ⟨by decide,
   (C6_close_classified_reconnect 401 401).1 (by decide),
   by decide,
   (C6_close_classified_reconnect 401 408).2.1 (by decide)⟩

/-! ## Identifier resolution bugs (C3, C4)

`connect.js` declares `secondaryNazunaSock` (line 51) and
`primaryNazunaSock` (line 326) but the message-dispatch expression
(line 241) and the dual-startup wait (line 345) reference the undeclared
names `secondarySocket` and `primarySocket`; in JS, reading an undeclared
identifier throws a `ReferenceError` (optional chaining does not guard an
unresolved name). -/

/-- Names declared at module scope in `connect.js`. -/
def moduleScopeNames : List String :=
  ["makeWASocket", "useMultiFileAuthState", "proto", "DisconnectReason",
   "getAggregateVotesInPollMessage", "makeInMemoryStore",
   "fetchLatestBaileysVersion", "Banner", "Boom", "NodeCache", "readline",
   "pino", "fs", "path", "logger", "AUTH_DIR_PRIMARY", "AUTH_DIR_SECONDARY",
   "DATABASE_DIR", "msgRetryCounterCache", "prefixo", "nomebot", "nomedono",
   "numerodono", "indexModule", "codeMode", "dualMode", "messagesCache",
   "ask", "groupCache", "store", "secondaryNazunaSock", "useSecondary",
   "getMessage", "createBotSocket", "startNazu"]

/-- Names in scope inside the `messages.upsert` handler (module scope plus
the enclosing `createBotSocket` and the handler's own bindings). -/
def upsertScope : List String :=
  moduleScopeNames ++
    ["authDir", "isPrimary", "state", "saveCreds", "version", "isLatest",
     "NazunaSock", "m", "info", "activeNazunaSock"]

/-- Names in scope inside `startNazu`'s dual-mode block. -/
def startNazuScope : List String :=
  moduleScopeNames ++ ["primaryNazunaSock", "waitForConnection"]

/-- JS identifier lookup: an undeclared name throws a `ReferenceError`
carrying the name. -/
def resolveVar (scope : List String) (name : String) : Except String Unit :=
  if name ∈ scope then .ok () else .error name

instance {ε α : Type} [DecidableEq ε] [DecidableEq α] : DecidableEq (Except ε α)
  | .ok a, .ok b =>
    if h : a = b then .isTrue (by rw [h]) else .isFalse (by simp [h])
  | .ok _, .error _ => .isFalse (by simp)
  | .error _, .ok _ => .isFalse (by simp)
  | .error e, .error e' =>
    if h : e = e' then .isTrue (by rw [h]) else .isFalse (by simp [h])

/-- Which session a message is handed to the command router on. -/
inductive Routed
  | primary
  | secondary
deriving DecidableEq

/-- The dispatch expression of line 241:
`dualMode && useSecondary && secondarySocket?.user ? secondarySocket :
NazunaSock`, with JS short-circuit evaluation: the undeclared
`secondarySocket` is only touched when `dualMode && useSecondary`. -/
def selectActiveSock (dualMode useSecondary secondaryUserSet : Bool) :
    Except String Routed :=
  if dualMode ∧ useSecondary then
    match resolveVar upsertScope "secondarySocket" with
    | .error n => .error n
    | .ok _ => .ok (if secondaryUserSet then .secondary else .primary)
  else .ok .primary

/-- Outcome of one qualifying inbound message. -/
inductive MsgOutcome
  | routed (r : Routed)
  | errorLogged (name : String)
deriving DecidableEq

/-- One qualifying message: pick the active socket, then flip
`useSecondary` and call the router; a throw is caught by the handler's
`try`/`catch` (logged), and the flip — which sits after the throwing
line — never executes. -/
def processUpsertMessage (dualMode secondaryUserSet useSecondary : Bool) :
    MsgOutcome × Bool :=
  match selectActiveSock dualMode useSecondary secondaryUserSet with
  | .error n => (.errorLogged n, useSecondary)
  | .ok r => (.routed r, !useSecondary)

/-- A run of `n` qualifying inbound messages starting from the given
`useSecondary` state. -/
def processUpsertSeq (dualMode secondaryUserSet : Bool) :
    Nat → Bool → List MsgOutcome
  | 0, _ => []
  | n + 1, st =>
    let r := processUpsertMessage dualMode secondaryUserSet st
    r.1 :: processUpsertSeq dualMode secondaryUserSet n r.2

/-- How many of the outcomes actually reached the command router. -/
def routedCount (l : List MsgOutcome) : Nat :=
  l.countP fun o => match o with | .routed _ => true | _ => false

/-- C3 fails on the code: in dual mode the second qualifying message (and
every one after it) evaluates the undeclared `secondarySocket`, throws a
`ReferenceError` that the handler catches and logs, never reaches the
command router, and never flips the alternation state — only the first
message is ever routed.  Outside dual mode every message is routed through
the primary. -/
theorem C3_dual_alternation_broken :
    processUpsertSeq true true 3 false =
      [.routed .primary, .errorLogged "secondarySocket",
       .errorLogged "secondarySocket"] ∧
    routedCount (processUpsertSeq true true 3 false) = 1 ∧
    resolveVar upsertScope "secondarySocket" = .error "secondarySocket" ∧
    "secondaryNazunaSock" ∈ upsertScope ∧
    processUpsertSeq false true 3 false =
      [.routed .primary, .routed .primary, .routed .primary] := by
  decide

/-- Result of `startNazu` in dual mode. -/
structure StartOutcome where
  dualReadyLogged : Bool
  continuedPrimaryOnly : Bool
deriving DecidableEq

/-- Line 345: `Promise.all([waitForConnection(primarySocket),
waitForConnection(secondarySocket)])` — both argument expressions resolve
undeclared identifiers. -/
def startNazuDualWait : Except String Unit := do
  let _ ← resolveVar startNazuScope "primarySocket"
  let _ ← resolveVar startNazuScope "secondarySocket"
  pure ()

/-- The dual-mode branch of `startNazu`: on success of the wait the
dual-ready message is logged; a throw is caught and the process continues
with the primary only. -/
def startNazuModel (dual : Bool) : StartOutcome :=
  if dual then
    match startNazuDualWait with
    | .ok _ => ⟨true, false⟩
    | .error _ => ⟨false, true⟩
  else ⟨false, false⟩

/-- C4 fails on the code: with dual mode enabled the wait throws a
`ReferenceError` on the undeclared `primarySocket` (the declared name is
`primaryNazunaSock`), the catch logs a startup error, and the
dual-mode-ready message is never logged — the manager never waits for both
sessions. -/
theorem C4_dual_ready_never_logged :
    startNazuModel true = ⟨false, true⟩ ∧
    startNazuDualWait = .error "primarySocket" ∧
    "primaryNazunaSock" ∈ startNazuScope ∧
    "primarySocket" ∉ startNazuScope := by
  decide

/-! ## Handler registration per session role (C10) -/

/-- The event classes of the session library that `createBotSocket`
subscribes to. -/
inductive EvType
  | credsUpdate
  | groupsUpdate
  | groupParticipantsUpdate
  | messagesUpsert
  | connectionUpdate
deriving DecidableEq, Fintype

/-- The handlers `createBotSocket` attaches. -/
inductive HandlerKind
  | saveCreds
  | metadataCacheUpdate
  | policyEngine
  | messageIntake
  | primaryConnLifecycle
  | secondaryConnLifecycle
deriving DecidableEq

/-- The `ev.on(...)` registrations of `createBotSocket`: `creds.update`
unconditionally (line 86); the metadata-cache, policy-engine,
message-intake and primary connection handlers only when `isPrimary`;
otherwise only the secondary connection handler. -/
def registeredHandlers (isPrimary : Bool) : List (EvType × HandlerKind) :=
  [(.credsUpdate, .saveCreds)] ++
    (if isPrimary then
      [(.groupsUpdate, .metadataCacheUpdate),
       (.groupParticipantsUpdate, .policyEngine),
       (.messagesUpsert, .messageIntake),
       (.connectionUpdate, .primaryConnLifecycle)]
    else [(.connectionUpdate, .secondaryConnLifecycle)])

/-- C10's middle clause is false: the secondary session does not register
*only* a connection-state handler — it also registers the
credential-rotation handler (`creds.update`, line 86 runs for both
roles). -/
theorem C10_secondary_not_only_connection :
    (EvType.credsUpdate, HandlerKind.saveCreds) ∈ registeredHandlers false ∧
    ¬(∀ eh ∈ registeredHandlers false, eh.1 = EvType.connectionUpdate) := by
  decide

/-- C10 amended: the secondary session registers exactly the
credential-rotation and connection-state handlers; the metadata-cache,
policy-engine and message-intake handlers are registered only on the
primary, so no policy action and no command-router invocation can happen
via the secondary session's stream. -/
theorem C10_secondary_registers_no_policy :
    registeredHandlers false =
      [(.credsUpdate, .saveCreds), (.connectionUpdate, .secondaryConnLifecycle)] ∧
    (∀ eh ∈ registeredHandlers false,
      eh.2 ≠ HandlerKind.policyEngine ∧ eh.2 ≠ HandlerKind.messageIntake ∧
        eh.2 ≠ HandlerKind.metadataCacheUpdate) ∧
    (∀ t : EvType, (t, HandlerKind.policyEngine) ∈ registeredHandlers true ↔
      t = EvType.groupParticipantsUpdate) ∧
    (∀ t : EvType, (t, HandlerKind.messageIntake) ∈ registeredHandlers true ↔
      t = EvType.messagesUpsert) := by
  decide

end Nazuna
